import Mathlib

/-!
Verification of the claude-stt repository: shallow embedding of
configuration handling (src/claude_stt/config.py), the engine factory
(src/claude_stt/engine_factory.py), the Whisper API engine adapter
(src/claude_stt/engines/whisper_api.py), and — modelled from the spec
where the daemon module is not part of the sources — the PID registry
and the recording-session state machine.
-/

namespace ClaudeStt

/-! ## Configuration (src/claude_stt/config.py) -/

/-- The Config dataclass from src/claude_stt/config.py.  Field names and
default values follow the Python dataclass exactly.  Note that the
dataclass does NOT define a field named whisper_api_language. -/
@[ext] structure Config where
  hotkey : String
  mode : String
  engine : String
  moonshine_model : String
  whisper_model : String
  sample_rate : Int
  max_recording_seconds : Int
  output_mode : String
  sound_effects : Bool
deriving Repr, DecidableEq

/-- Python str.strip() on a string: whitespace removed from both ends.
Written over the character list so that it computes by kernel reduction. -/
def pyStrip (s : String) : String :=
  String.mk (((s.data.dropWhile Char.isWhitespace).reverse.dropWhile
    Char.isWhitespace).reverse)

/-- The dataclass defaults: the value of Config() in Python. -/
def Config.default : Config :=
  { hotkey := "ctrl+shift+space"
    mode := "toggle"
    engine := "moonshine"
    moonshine_model := "moonshine/base"
    whisper_model := "medium"
    sample_rate := 16000
    max_recording_seconds := 300
    output_mode := "auto"
    sound_effects := true }

/-- Config.validate from config.py lines 124-160: each invalid field is
replaced by its default (max_recording_seconds is clamped), in the order
the source checks them.  The hotkey check models
`not isinstance(self.hotkey, str) or not self.hotkey.strip()` for the
string case: an all-whitespace hotkey is replaced. -/
def Config.validate (c : Config) : Config :=
  let c1 := if pyStrip c.hotkey = "" then { c with hotkey := "ctrl+shift+space" } else c
  let c2 := if c1.mode = "push-to-talk" ∨ c1.mode = "toggle" then c1
            else { c1 with mode := "toggle" }
  let c3 := if c2.engine = "moonshine" ∨ c2.engine = "whisper" then c2
            else { c2 with engine := "moonshine" }
  let c4 := if c3.moonshine_model = "moonshine/tiny" ∨ c3.moonshine_model = "moonshine/base"
            then c3 else { c3 with moonshine_model := "moonshine/base" }
  let c5 := if c4.output_mode = "injection" ∨ c4.output_mode = "clipboard" ∨
               c4.output_mode = "auto" then c4
            else { c4 with output_mode := "auto" }
  let c6 := if c5.max_recording_seconds < 1 then { c5 with max_recording_seconds := 1 }
            else if c5.max_recording_seconds > 600 then { c5 with max_recording_seconds := 600 }
            else c5
  if c6.sample_rate ≠ 16000 then { c6 with sample_rate := 16000 } else c6

/-- The invariant Config.validate establishes on every field it checks. -/
def Config.Valid (c : Config) : Prop :=
  pyStrip c.hotkey ≠ "" ∧
  (c.mode = "push-to-talk" ∨ c.mode = "toggle") ∧
  (c.engine = "moonshine" ∨ c.engine = "whisper") ∧
  (c.moonshine_model = "moonshine/tiny" ∨ c.moonshine_model = "moonshine/base") ∧
  (c.output_mode = "injection" ∨ c.output_mode = "clipboard" ∨ c.output_mode = "auto") ∧
  (1 ≤ c.max_recording_seconds ∧ c.max_recording_seconds ≤ 600) ∧
  c.sample_rate = 16000

set_option maxHeartbeats 4000000

/-- Fieldwise normal form of Config.validate: each check only reads and
writes its own field, so the result can be written one field at a time. -/
theorem Config.validate_eq (c : Config) :
    c.validate =
      { hotkey := if pyStrip c.hotkey = "" then "ctrl+shift+space" else c.hotkey
        mode := if c.mode = "push-to-talk" ∨ c.mode = "toggle" then c.mode else "toggle"
        engine := if c.engine = "moonshine" ∨ c.engine = "whisper" then c.engine
                  else "moonshine"
        moonshine_model :=
          if c.moonshine_model = "moonshine/tiny" ∨ c.moonshine_model = "moonshine/base"
          then c.moonshine_model else "moonshine/base"
        whisper_model := c.whisper_model
        sample_rate := 16000
        max_recording_seconds :=
          if c.max_recording_seconds < 1 then 1
          else if c.max_recording_seconds > 600 then 600
          else c.max_recording_seconds
        output_mode :=
          if c.output_mode = "injection" ∨ c.output_mode = "clipboard" ∨
             c.output_mode = "auto" then c.output_mode else "auto"
        sound_effects := c.sound_effects } := by
  cases c
  ext <;>
    simp only [Config.validate, apply_ite Config.hotkey, apply_ite Config.mode,
      apply_ite Config.engine, apply_ite Config.moonshine_model,
      apply_ite Config.whisper_model, apply_ite Config.sample_rate,
      apply_ite Config.max_recording_seconds, apply_ite Config.output_mode,
      apply_ite Config.sound_effects, ite_self] <;>
    split_ifs <;> simp_all

theorem Config.validate_valid (c : Config) : (c.validate).Valid := by
  rw [Config.validate_eq]
  refine ⟨?_, ?_, ?_, ?_, ?_, ⟨?_, ?_⟩, ?_⟩ <;> dsimp only <;> (try split_ifs) <;>
    first | decide | omega | simp_all

theorem Config.validate_of_valid (c : Config) (h : c.Valid) : c.validate = c := by
  obtain ⟨h1, h2, h3, h4, h5, ⟨h6a, h6b⟩, h7⟩ := h
  rw [Config.validate_eq]
  apply Config.ext <;> dsimp only <;> (try split_ifs) <;>
    first | decide | omega | simp_all

theorem Config.validate_idem (c : Config) : c.validate.validate = c.validate :=
  Config.validate_of_valid c.validate (Config.validate_valid c)

/-! ## Configuration directory resolution (config.py, Config.get_config_dir) -/

/-- A filesystem path, abstracted to its textual form. -/
def homeDefaultDir (home : String) : String :=
  home ++ "/.claude/plugins/claude-stt"

/-- Config.get_config_dir from config.py lines 43-52.  The argument
pluginRoot is os.environ.get of CLAUDE_PLUGIN_ROOT: none when the
variable is unset, some v when it is set to v.  Python then tests
`if plugin_root:`, which is false for None and for the empty string. -/
def get_config_dir (pluginRoot : Option String) (home : String) : String :=
  let truthy : Bool := match pluginRoot with
    | some v => v != ""
    | none => false
  if truthy then pluginRoot.getD "" else homeDefaultDir home

/-! ## Config.load (config.py lines 59-93) -/

/-- The claude-stt table of a parsed TOML file: each key that may appear,
as stt_config.get reads it.  A none field means the key is absent and the
dataclass default is used. -/
structure SttTable where
  hotkey : Option String
  mode : Option String
  engine : Option String
  moonshine_model : Option String
  whisper_model : Option String
  sample_rate : Option Int
  max_recording_seconds : Option Int
  output_mode : Option String
  sound_effects : Option Bool
deriving Repr, DecidableEq

/-- The outcome of the I/O and parsing that Config.load performs before it
builds a Config: the configuration file is absent, tomli is not installed,
the try block raised (unreadable file, invalid TOML, or wrongly typed
values that make construction or validation raise), or parsing succeeded
with the given claude-stt table. -/
inductive LoadOutcome where
  | fileAbsent
  | tomliMissing
  | raised
  | parsed (t : SttTable)
deriving Repr, DecidableEq

/-- Building the Config from a parsed table, as the keyword arguments of
`cls(...)` in Config.load do: each field is the table value if present,
else the dataclass default. -/
def Config.fromTable (t : SttTable) : Config :=
  { hotkey := t.hotkey.getD Config.default.hotkey
    mode := t.mode.getD Config.default.mode
    engine := t.engine.getD Config.default.engine
    moonshine_model := t.moonshine_model.getD Config.default.moonshine_model
    whisper_model := t.whisper_model.getD Config.default.whisper_model
    sample_rate := t.sample_rate.getD Config.default.sample_rate
    max_recording_seconds :=
      t.max_recording_seconds.getD Config.default.max_recording_seconds
    output_mode := t.output_mode.getD Config.default.output_mode
    sound_effects := t.sound_effects.getD Config.default.sound_effects }

/-- Config.load from config.py lines 59-93.  Absent file: `return cls()`.
tomli missing: `return cls()`.  Parsed: build from the table and validate.
Any exception in the try block: `return cls().validate()`. -/
def Config.load : LoadOutcome → Config
  | .fileAbsent => Config.default
  | .tomliMissing => Config.default
  | .raised => Config.default.validate
  | .parsed t => (Config.fromTable t).validate

/-! ## Engine factory (src/claude_stt/engine_factory.py) -/

/-- The closed set of engine instances build_engine may construct, with
the constructor arguments the factory passes. -/
inductive STTEngine where
  | moonshineEngine (model_name : String)
  | whisperEngine (model_name : String)
  | whisperAPIEngineVariant (language : Option String)
deriving Repr, DecidableEq

/-- The exceptions that can escape build_engine. -/
inductive BuildError where
  /-- `raise EngineError(f"Unknown engine ...")` on the final line. -/
  | engineError (msg : String)
  /-- Python AttributeError: the whisper-api branch reads
  `config.whisper_api_language`, an attribute the Config dataclass does
  not define. -/
  | attributeError (attr : String)
deriving Repr, DecidableEq

/-- build_engine from engine_factory.py lines 11-20.  The whisper-api
branch evaluates `config.whisper_api_language` before anything else, and
since the Config dataclass has no such attribute this raises
AttributeError. -/
def build_engine (config : Config) : Except BuildError STTEngine :=
  if config.engine = "moonshine" then
    .ok (.moonshineEngine config.moonshine_model)
  else if config.engine = "whisper" then
    .ok (.whisperEngine config.whisper_model)
  else if config.engine = "whisper-api" then
    .error (.attributeError "whisper_api_language")
  else
    .error (.engineError ("Unknown engine " ++ config.engine))

/-! ## WhisperAPIEngine (src/claude_stt/engines/whisper_api.py) -/

/-- The mutable state of a WhisperAPIEngine instance.  api_key is
`api_key or os.environ.get("OPENAI_API_KEY")`: none models Python None,
and the empty string is also falsy.  client records whether self._client
has been set (the concrete OpenAI client object carries no further state
the code inspects). -/
structure WhisperAPIEngine where
  api_key : Option String
  model : String
  language : Option String
  client : Option Unit
deriving Repr, DecidableEq

/-- `bool(self.api_key)` in Python: false for None and for "". -/
def pyBoolStr : Option String → Bool
  | some s => s != ""
  | none => false

/-- The module-level and per-call environment of the engine: whether the
openai package imported (`_openai_available`), whether constructing
`_OpenAI(api_key=...)` succeeds, and the outcome of the try block of
transcribe (WAV encoding plus the API call): the response text, or any
raised exception. -/
structure OpenAIEnv where
  openai_available : Bool
  initOk : Bool
  apiCall : Except String String
deriving Repr

/-- WhisperAPIEngine.is_available (whisper_api.py lines 53-55):
`_openai_available and bool(self.api_key)`. -/
def WhisperAPIEngine.is_available (e : WhisperAPIEngine) (env : OpenAIEnv) : Bool :=
  env.openai_available && pyBoolStr e.api_key

/-- WhisperAPIEngine.load_model (whisper_api.py lines 57-78), returning
the updated engine state together with the boolean result.  Unavailable:
log and return False.  Client already set: return True.  Otherwise build
the client, True on success and False when the constructor raises. -/
def WhisperAPIEngine.load_model (e : WhisperAPIEngine) (env : OpenAIEnv) :
    WhisperAPIEngine × Bool :=
  if ¬ e.is_available env then (e, false)
  else if e.client.isSome then (e, true)
  else if env.initOk then ({ e with client := some () }, true)
  else (e, false)

/-- WhisperAPIEngine.transcribe (whisper_api.py lines 80-121).  If
load_model fails, return "".  Otherwise the entire body — int16
conversion, in-memory WAV encoding, and the API call on the audio — runs
inside one try block whose outcome env.apiCall carries: on success the
response text is stripped (Python str.strip, modelled by pyStrip), and on
any exception the handler returns "". -/
def WhisperAPIEngine.transcribe (e : WhisperAPIEngine) (env : OpenAIEnv)
    (audio : List Int) (sample_rate : Int) : WhisperAPIEngine × String :=
  let r := e.load_model env
  if ¬ r.2 then (r.1, "")
  else
    match env.apiCall with
    | .ok text => (r.1, pyStrip text)
    | .error _ => (r.1, "")

/-! ## PID Registry

The daemon module (claude_stt.daemon) is exercised by tests/test_daemon.py
but is not among the sources, so the registry is modelled from the spec
(sections 3, 4.1 and 6). -/

/-- Modelled from the spec: the DaemonRecord of section 3 — pid, launch
command, creation timestamp — normalized so that command and created_at
are absent/empty for legacy entries. -/
structure DaemonRecord where
  pid : Int
  command : Option String
  created_at : Option String
deriving Repr, DecidableEq

/-- Modelled from the spec: the content of the registry file, at the
granularity read() distinguishes — a structured record, a legacy bare
integer, or unparsable content (the byte-level encodings live in the
missing daemon module). -/
inductive RegistryContent where
  | structured (pid : Int) (command : String) (created_at : String)
  | legacy (pid : Int)
  | garbage (raw : String)
deriving Repr, DecidableEq

/-- Modelled from the spec: the registry — a single well-known file that
either is absent (none) or holds one content value. -/
structure Registry where
  file : Option RegistryContent
deriving Repr, DecidableEq

/-- Modelled from the spec: `read() -> Option<DaemonRecord>` of section
4.1 — structured format first, then the legacy bare-integer fallback, and
none when the file is absent or unparsable in both forms.  Legacy entries
normalize to a record with empty command and created_at. -/
def Registry.read (reg : Registry) : Option DaemonRecord :=
  match reg.file with
  | none => none
  | some (.structured pid command created_at) =>
      some ⟨pid, some command, some created_at⟩
  | some (.legacy pid) => some ⟨pid, none, none⟩
  | some (.garbage _) => none

/-- Modelled from the spec: `is_stale(record)` of section 4.1 — true if
no live process with record.pid exists; the platform liveness check is
the oracle `alive`. -/
def Registry.is_stale (alive : Int → Bool) (r : DaemonRecord) : Bool :=
  ! alive r.pid

/-- Modelled from the spec: the AlreadyRunning error of section 7. -/
inductive AlreadyRunning where
  | alreadyRunning
deriving Repr, DecidableEq

/-- Modelled from the spec: `claim(pid, command)` of section 4.1 — fails
with AlreadyRunning if a live record already exists; a stale record is
silently overwritten; otherwise writes a structured DaemonRecord (with
the current timestamp `now`) to the registry file. -/
def Registry.claim (alive : Int → Bool) (now : String) (reg : Registry)
    (pid : Int) (command : String) : Except AlreadyRunning Registry :=
  match reg.read with
  | some r =>
      if Registry.is_stale alive r then
        .ok ⟨some (.structured pid command now)⟩
      else
        .error .alreadyRunning
  | none => .ok ⟨some (.structured pid command now)⟩

/-- Modelled from the spec: `release()` of section 4.1 — removes the
registry file; removing an already-absent file is not an error. -/
def Registry.release (_reg : Registry) : Registry := ⟨none⟩

/-! ## Recording Session state machine

The recording session is part of the daemon module, which is not among
the sources; it is modelled from the spec (sections 3, 4.2 and 8). -/

/-- Modelled from the spec: the session states of section 4.2. -/
inductive SessionState where
  | Idle
  | Recording
  | Transcribing
  | Delivering
  | Failed
  | Cancelled
deriving Repr, DecidableEq

/-- Modelled from the spec: the RecordingSession of section 3 — state,
start time, append-only audio buffer, and the once-set result text. -/
structure RecordingSession where
  state : SessionState
  started_at : Option String
  audio_buffer : List Int
  result_text : Option String
deriving Repr, DecidableEq

/-- Modelled from the spec: the transition of section 4.2 for a
start-recording event.  From Idle it allocates a fresh buffer and records
started_at; per the re-entrancy rule, in every other state the event is
ignored (logged only) and the session is unchanged. -/
def RecordingSession.handleStart (s : RecordingSession) (now : String) :
    RecordingSession :=
  match s.state with
  | .Idle => { s with state := .Recording, started_at := some now, audio_buffer := [] }
  | _ => s

/-- Modelled from the spec: the transition of section 4.2 for an
audio-frame event — samples are appended to the buffer while Recording;
in any other state the frame is not captured. -/
def RecordingSession.handleFrame (s : RecordingSession) (samples : List Int) :
    RecordingSession :=
  match s.state with
  | .Recording => { s with audio_buffer := s.audio_buffer ++ samples }
  | _ => s

/-- Modelled from the spec: the transition of section 4.2 for a
stop-recording event, together with a flag telling whether the engine
adapter is invoked while handling it.  With a non-empty buffer the
session moves to Transcribing (where the engine is invoked); with an
empty buffer it is a no-op discard back to Idle, not an error, and the
engine adapter is never called. -/
def RecordingSession.handleStop (s : RecordingSession) :
    RecordingSession × Bool :=
  match s.state with
  | .Recording =>
      if s.audio_buffer.isEmpty then
        ({ s with state := .Idle, started_at := none, audio_buffer := [] }, false)
      else
        ({ s with state := .Transcribing }, true)
  | _ => (s, false)

/-! ## Claim theorems -/

/-- Claim C1: in every state of the Recording Session other than Idle
(Recording, Transcribing, or Delivering), a start-recording event leaves
the whole session — in particular its state and audio buffer — unchanged;
since the daemon owns a single RecordingSession value, no second
concurrent session is ever created. -/
theorem claim_C1 (s : RecordingSession) (now : String)
    (h : s.state = .Recording ∨ s.state = .Transcribing ∨ s.state = .Delivering) :
    s.handleStart now = s := by
  unfold RecordingSession.handleStart
  rcases h with h | h | h <;> rw [h]

theorem claim_C1_witness :
    RecordingSession.handleStart ⟨.Recording, some "t0", [3, 1, 4], none⟩ "t1" =
      ⟨.Recording, some "t0", [3, 1, 4], none⟩ :=
  claim_C1 ⟨.Recording, some "t0", [3, 1, 4], none⟩ "t1" (Or.inl rfl)

/-- Claim C2: for every audio input and sample rate, transcribe never
raises across its boundary (it is a total function into a plain string);
on every internal failure — engine unavailable, client construction
raising, or the API call raising — it returns the empty string. -/
theorem claim_C2 (e : WhisperAPIEngine) (env : OpenAIEnv)
    (audio : List Int) (sample_rate : Int)
    (h : e.is_available env = false ∨ (e.client = none ∧ env.initOk = false) ∨
         ∃ msg, env.apiCall = .error msg) :
    (e.transcribe env audio sample_rate).2 = "" := by
  unfold WhisperAPIEngine.transcribe WhisperAPIEngine.load_model
  rcases h with h | ⟨hc, hi⟩ | ⟨msg, hm⟩ <;> split_ifs <;> simp_all

theorem claim_C2_witness :
    WhisperAPIEngine.transcribe ⟨none, "whisper-1", none, none⟩
      ⟨true, true, Except.ok "hello"⟩ [0, 0, 0] 16000 =
      (⟨none, "whisper-1", none, none⟩, "") :=
  have h : WhisperAPIEngine.is_available ⟨none, "whisper-1", none, none⟩
      ⟨true, true, Except.ok "hello"⟩ = false := rfl
  Prod.ext rfl
    (claim_C2 ⟨none, "whisper-1", none, none⟩ ⟨true, true, Except.ok "hello"⟩
      [0, 0, 0] 16000 (Or.inl h))

/-- Claim C3: a registry file in legacy form (bare integer pid) and one
in structured form with the same pid both read back as a record whose pid
field is that pid, and the legacy record has absent command and
created_at. -/
theorem claim_C3 (pid : Int) (command : String) (created_at : String) :
    (Registry.read ⟨some (.legacy pid)⟩).map DaemonRecord.pid = some pid ∧
    (Registry.read ⟨some (.structured pid command created_at)⟩).map
      DaemonRecord.pid = some pid ∧
    Registry.read ⟨some (.legacy pid)⟩ = some ⟨pid, none, none⟩ ∧
    Registry.read ⟨some (.structured pid command created_at)⟩ =
      some ⟨pid, some command, some created_at⟩ :=
  ⟨rfl, rfl, rfl, rfl⟩

/-- Claim C4: the configuration directory is resolved by priority — a
set, non-empty CLAUDE_PLUGIN_ROOT value is returned as is; an unset or
empty override falls back to the fixed home-directory default
~/.claude/plugins/claude-stt. -/
theorem claim_C4 (home v : String) (hv : v ≠ "") :
    get_config_dir (some v) home = v ∧
    get_config_dir (some "") home = homeDefaultDir home ∧
    get_config_dir none home = homeDefaultDir home := by
  refine ⟨?_, rfl, rfl⟩
  unfold get_config_dir
  simp [hv]

theorem claim_C4_witness :
    get_config_dir (some "/plugins/claude-stt") "/home/u" = "/plugins/claude-stt" ∧
    get_config_dir (some "") "/home/u" = homeDefaultDir "/home/u" ∧
    get_config_dir none "/home/u" = homeDefaultDir "/home/u" :=
  claim_C4 "/home/u" "/plugins/claude-stt" (by decide)

/-- Claim C5: claim fails with AlreadyRunning exactly when a live
(non-stale) record exists; a stale record is silently overwritten; a
claim with no registry file, and a claim right after release, always
succeed. -/
theorem claim_C5 (alive : Int → Bool) (now : String) (reg : Registry)
    (pid : Int) (command : String) :
    (Registry.claim alive now reg pid command = .error .alreadyRunning ↔
      ∃ r, reg.read = some r ∧ alive r.pid = true) ∧
    (∀ r, reg.read = some r → alive r.pid = false →
      Registry.claim alive now reg pid command =
        .ok ⟨some (.structured pid command now)⟩) ∧
    (reg.file = none →
      Registry.claim alive now reg pid command =
        .ok ⟨some (.structured pid command now)⟩) ∧
    Registry.claim alive now (reg.release) pid command =
      .ok ⟨some (.structured pid command now)⟩ := by
  unfold Registry.claim Registry.is_stale Registry.release Registry.read
  rcases reg with ⟨_ | ⟨pid0, cmd0, t0⟩ | ⟨pid0⟩ | ⟨raw0⟩⟩ <;>
    constructor <;> try constructor
  all_goals simp_all

theorem claim_C5_witness :
    Registry.claim (fun _ => true) "t1" ⟨some (.legacy 7)⟩ 42 "daemon" =
      .error .alreadyRunning ∧
    Registry.claim (fun _ => false) "t1" ⟨some (.legacy 7)⟩ 42 "daemon" =
      .ok ⟨some (.structured 42 "daemon" "t1")⟩ ∧
    Registry.claim (fun _ => true) "t1"
        (Registry.release ⟨some (.legacy 7)⟩) 42 "daemon" =
      .ok ⟨some (.structured 42 "daemon" "t1")⟩ :=
  ⟨(claim_C5 (fun _ => true) "t1" ⟨some (.legacy 7)⟩ 42 "daemon").1.mpr
      ⟨⟨7, none, none⟩, rfl, rfl⟩,
   (claim_C5 (fun _ => false) "t1" ⟨some (.legacy 7)⟩ 42 "daemon").2.1
      ⟨7, none, none⟩ rfl rfl,
   (claim_C5 (fun _ => true) "t1" ⟨some (.legacy 7)⟩ 42 "daemon").2.2.2⟩

/-- Claim C6: load_model is idempotent and safe to call repeatedly — once
a call has returned true, any later call on the same engine (with the
fixed module-level openai availability, though the later constructor
outcome may differ) returns true again, does not rebuild the client, and
leaves the engine exactly as the single successful call left it. -/
theorem claim_C6 (e : WhisperAPIEngine) (env env2 : OpenAIEnv)
    (havail : env2.openai_available = env.openai_available)
    (h : (e.load_model env).2 = true) :
    WhisperAPIEngine.load_model (e.load_model env).1 env2 =
      ((e.load_model env).1, true) := by
  unfold WhisperAPIEngine.load_model WhisperAPIEngine.is_available at *
  split_ifs at * <;> simp_all

theorem claim_C6_witness :
    WhisperAPIEngine.load_model
      (WhisperAPIEngine.load_model ⟨some "key", "whisper-1", none, none⟩
        ⟨true, true, Except.ok "x"⟩).1
      ⟨true, false, Except.error "boom"⟩ =
      ((WhisperAPIEngine.load_model ⟨some "key", "whisper-1", none, none⟩
        ⟨true, true, Except.ok "x"⟩).1, true) :=
  claim_C6 ⟨some "key", "whisper-1", none, none⟩ ⟨true, true, Except.ok "x"⟩
    ⟨true, false, Except.error "boom"⟩ rfl rfl

/-- Claim C7: a stop-recording event in Recording with an empty audio
buffer returns the session to Idle — not Failed — and the engine adapter
is not invoked (the invocation flag of handleStop is false). -/
theorem claim_C7 (s : RecordingSession) (hstate : s.state = .Recording)
    (hbuf : s.audio_buffer = []) :
    s.handleStop =
      ({ s with state := .Idle, started_at := none, audio_buffer := [] }, false) ∧
    (s.handleStop).1.state ≠ .Failed := by
  unfold RecordingSession.handleStop
  rw [hstate, hbuf]
  exact ⟨rfl, by simp⟩

theorem claim_C7_witness :
    RecordingSession.handleStop ⟨.Recording, some "t0", [], none⟩ =
      (⟨.Idle, none, [], none⟩, false) :=
  (claim_C7 ⟨.Recording, some "t0", [], none⟩ rfl rfl).1

/-- Claim C8: Config.load is total — it is a function into Config, so no
exception crosses its boundary for any file state — and on every outcome
other than a successful parse (absent file, missing tomli, or a raising
try block: unreadable file, invalid TOML, wrongly typed values) it
returns the default configuration. -/
theorem claim_C8 (o : LoadOutcome) (h : ∀ t, o ≠ .parsed t) :
    Config.load o = Config.default := by
  cases o with
  | fileAbsent => rfl
  | tomliMissing => rfl
  | raised =>
      show Config.default.validate = Config.default
      exact Config.validate_of_valid Config.default
        (by unfold Config.Valid; decide)
  | parsed t => exact absurd rfl (h t)

theorem claim_C8_witness : Config.load LoadOutcome.raised = Config.default :=
  claim_C8 LoadOutcome.raised (fun t h => LoadOutcome.noConfusion h)

/-- Claim C9: Config.validate establishes the invariant — mode, engine,
output_mode and moonshine_model restricted to their allowed literals,
max_recording_seconds clamped into [1, 600], sample_rate forced to
16000 — and validating an already-validated Config changes nothing. -/
theorem claim_C9 (c : Config) :
    (c.validate.mode = "push-to-talk" ∨ c.validate.mode = "toggle") ∧
    (c.validate.engine = "moonshine" ∨ c.validate.engine = "whisper") ∧
    (c.validate.output_mode = "injection" ∨ c.validate.output_mode = "clipboard" ∨
      c.validate.output_mode = "auto") ∧
    (c.validate.moonshine_model = "moonshine/tiny" ∨
      c.validate.moonshine_model = "moonshine/base") ∧
    (1 ≤ c.validate.max_recording_seconds ∧
      c.validate.max_recording_seconds ≤ 600) ∧
    c.validate.sample_rate = 16000 ∧
    c.validate.validate = c.validate := by
  obtain ⟨_, h2, h3, h4, h5, h6, h7⟩ := Config.validate_valid c
  exact ⟨h2, h3, h5, h4, h6, h7, Config.validate_idem c⟩

/-- Claim C10: on any validated Config, build_engine succeeds with a
MoonshineEngine or a WhisperEngine; the EngineError branch and the
whisper-api branch (whose read of the undefined attribute
whisper_api_language is modelled as an AttributeError) are unreachable
after validation. -/
theorem claim_C10 (c : Config) :
    build_engine c.validate =
      .ok (.moonshineEngine c.validate.moonshine_model) ∨
    build_engine c.validate = .ok (.whisperEngine c.validate.whisper_model) := by
  obtain ⟨_, _, heng, _, _, _, _⟩ := Config.validate_valid c
  unfold build_engine
  rcases heng with h | h <;> rw [h] <;> simp

end ClaudeStt
